import Mathlib

/-!
Verification of `carousell/md-gin-prometheus-middleware` (src/prometheus.go)
against its natural-language specification.

The Go source is shallowly embedded below.  Conventions of the embedding:

* Wall-clock timestamps (`time.Now`) are modelled as `Int` nanosecond counts
  supplied to the handler in the order the code samples them; a
  `time.Duration` is the difference of two such counts, and Go's
  `float64(d) / float64(time.Second)` becomes exact rational division by
  `1000000000` (Go `float64` arithmetic is idealized as `ℚ`).
* The state of the `prometheus.HistogramVec` object pointed to by
  `Prometheus.reqDur` is the list of observations recorded on it, in order,
  together with its immutable bucket boundaries; the derived cumulative
  bucket counters, sum and count of the Prometheus client library are the
  derived functions `bucketCount`, `sumObs` and `count` below.
* The process-wide default registry of the Prometheus client library is a
  list of registered metric families; `register` models
  `prometheus.Register`, which reports an error on a duplicate
  fully-qualified name.
* `gin.Context.Next()` (the downstream handler chain) is modelled by a
  `Downstream` value the host supplies: either normal completion with the
  final response status (`c.Writer.Status()`) and the matched route template
  (`c.FullPath()`, `""` when no route matched), or a panic, which unwinds
  through the middleware (the middleware installs no `defer`/`recover`).
* `fmt.Printf` output is collected as a list of emitted lines; Go's
  reference-layout date formatting and `%f` are abstracted as decimal
  renderings of the underlying numbers.
-/

namespace GinProm

/-- A label tuple of the histogram: (`code`, `path`) label values, in the
order `WithLabelValues(status, method_path)` supplies them. -/
abbrev Label := String × String

/-- State of a `prometheus.HistogramVec`: the immutable bucket upper bounds
fixed at construction and the sequence of observations recorded so far,
each attributed to one label tuple. -/
structure HistogramVec where
  buckets : List ℚ
  obs : List (Label × ℚ)
deriving DecidableEq, Repr

/-- `Observe` on a child of the histogram vector: records one observation
with value `v` (seconds) on label tuple `l`. -/
def observe (h : HistogramVec) (l : Label) (v : ℚ) : HistogramVec :=
  { h with obs := h.obs ++ [(l, v)] }

/-- Derived total count of observations recorded on label tuple `l`. -/
def count (h : HistogramVec) (l : Label) : Nat :=
  (h.obs.filter (fun o => o.1 = l)).length

/-- Derived cumulative sum of the observation values recorded on `l`. -/
def sumObs (h : HistogramVec) (l : Label) : ℚ :=
  ((h.obs.filter (fun o => o.1 = l)).map Prod.snd).sum

/-- Derived cumulative counter of the bucket with upper bound `b` for label
tuple `l`: the number of observations on `l` with value `≤ b` (the
Prometheus client counts an observation into every bucket whose upper
bound is at least the observed value). -/
def bucketCount (h : HistogramVec) (l : Label) (b : ℚ) : Nat :=
  (h.obs.filter (fun o => o.1 = l ∧ o.2 ≤ b)).length

/-- The bucket upper bounds of `registerMetrics` (src/prometheus.go lines
79–95), as exact rationals. -/
def defaultBuckets : List ℚ :=
  [1/10000, 2/10000, 5/10000, 1/1000, 2/1000, 5/1000,
   1/100, 2/100, 5/100, 1/10, 2/10, 5/10, 1, 2, 5]

/-- One metric family as held by the Prometheus client registry: its
fully-qualified name, its variable label names, and the histogram state. -/
structure MetricFamily where
  name : String
  labelNames : List String
  hist : HistogramVec
deriving DecidableEq, Repr

/-- The process-wide default registry: the registered metric families. -/
abbrev Registry := List MetricFamily

/-- `prometheus.BuildFQName`: joins namespace, subsystem and name with
`"_"`, skipping empty components. -/
def buildFQName (ns subsystem name : String) : String :=
  if name = "" then ""
  else if ns ≠ "" ∧ subsystem ≠ "" then ns ++ "_" ++ subsystem ++ "_" ++ name
  else if ns ≠ "" then ns ++ "_" ++ name
  else if subsystem ≠ "" then subsystem ++ "_" ++ name
  else name

/-- `prometheus.Register` on the default registry: fails with an
`AlreadyRegisteredError` when a collector with the same fully-qualified
name is already registered; otherwise adds the collector. -/
def register (reg : Registry) (m : MetricFamily) : Except String Registry :=
  if reg.any (fun f => f.name = m.name) then
    .error "duplicate metrics collector registration attempted"
  else
    .ok (reg ++ [m])

/-- src/prometheus.go line 13: `var defaultMetricPath = "/metrics"`. -/
def defaultMetricPath : String := "/metrics"

/-- The `Prometheus` struct (src/prometheus.go lines 19–24): the histogram
vector it points to and the metrics path.  (`router`/`listenAddress`
concern only the optional secondary listener and carry no histogram
state.) -/
structure Prometheus where
  reqDur : MetricFamily
  MetricsPath : String
deriving DecidableEq, Repr

/-- The metric family `registerMetrics` constructs for subsystem `s`:
name `BuildFQName("", s, "request_duration_seconds")`, label names
`["code", "path"]`, the fixed buckets, no observations yet. -/
def mkReqDur (s : String) : MetricFamily :=
  ⟨buildFQName "" s "request_duration_seconds", ["code", "path"],
   ⟨defaultBuckets, []⟩⟩

/-- `registerMetrics` (src/prometheus.go lines 71–99): builds the histogram
vector and calls `prometheus.Register(p.reqDur)`, discarding the returned
error — on a duplicate, the registry is left unchanged and execution
continues. -/
def registerMetrics (s : String) (reg : Registry) : MetricFamily × Registry :=
  let fam := mkReqDur s
  match register reg fam with
  | .ok reg' => (fam, reg')
  | .error _ => (fam, reg)

/-- `NewPrometheus` (src/prometheus.go lines 27–35): always returns a
`Prometheus` with the default metrics path; there is no error return and
no abort path. -/
def NewPrometheus (s : String) (reg : Registry) : Prometheus × Registry :=
  let r := registerMetrics s reg
  (⟨r.1, defaultMetricPath⟩, r.2)

/-- The request target URL as `net/http` parses it for a server request:
a path and a raw query string. -/
structure URL where
  path : String
  rawQuery : String
deriving DecidableEq, Repr

/-- `net/url.URL.String()` for a server-request URL: the path, followed by
`"?" + RawQuery` when the query is non-empty. -/
def URL.urlString (u : URL) : String :=
  if u.rawQuery = "" then u.path else u.path ++ "?" ++ u.rawQuery

/-- The parts of `*http.Request` the middleware reads: the method and the
target URL. -/
structure Request where
  method : String
  url : URL
deriving DecidableEq, Repr

/-- Behaviour of the downstream handler chain invoked by `c.Next()`:
either it completes, leaving a final response status
(`c.Writer.Status()`) and a matched route template (`c.FullPath()`, `""`
when no route matched), or it panics, and the panic unwinds through this
middleware, which installs no `defer`/`recover`. -/
inductive Downstream where
  | normal (status : Nat) (fullPath : String)
  | panicked
deriving DecidableEq, Repr

/-- Go's reference-layout timestamp formatting, abstracted as a decimal
rendering of the nanosecond count. -/
def fmtTs (ns : Int) : String := toString ns

/-- Go's `%f` formatting of a float64, abstracted as the decimal rendering
of the exact rational. -/
def fmtElapsed (q : ℚ) : String := toString q

/-- The `fmt.Printf` line of src/prometheus.go lines 118–122. -/
def logLine (startNs endNs : Int) (elapsed : ℚ) : String :=
  "Prometheus capture start-ts::" ++ fmtTs startNs ++
    " end-ts::" ++ fmtTs endNs ++ " elapsed::" ++ fmtElapsed elapsed ++ "\n"

/-- Result of one pass of the middleware: the histogram state afterwards,
the lines written to standard output, whether a panic is still unwinding
past the middleware, and the final response status visible to whoever is
above it (`none` while a panic is unwinding). -/
structure MWResult where
  hist : HistogramVec
  stdout : List String
  propagating : Bool
  status : Option Nat
deriving DecidableEq, Repr

/-- The closure returned by `HandlerFunc` (src/prometheus.go lines
102–130), for one request.  `startNs` and `endNs` are the two `time.Now()`
samples, taken immediately before `c.Next()` and after the status read
respectively; `h` is the state of the histogram vector `p.reqDur` points
to when the request arrives. -/
def HandlerFunc (p : Prometheus) (req : Request) (down : Downstream)
    (startNs endNs : Int) (h : HistogramVec) : MWResult :=
  if req.url.urlString = p.MetricsPath then
    match down with
    | .normal st _ => ⟨h, [], false, some st⟩
    | .panicked => ⟨h, [], true, none⟩
  else
    match down with
    | .panicked => ⟨h, [], true, none⟩
    | .normal st fp =>
      let status := toString st
      let elapsed : ℚ := ((endNs : ℚ) - (startNs : ℚ)) / 1000000000
      let path := if fp = "" then "404" else fp
      let h' := observe h (status, req.method ++ "_" ++ path) elapsed
      ⟨h', [logLine startNs endNs elapsed], false, some st⟩

/-- `gin.Recovery()` (modelled): the middleware installed ahead of the
instrumentation by `gin.Default()`; it recovers a panic unwinding out of
the inner chain and reports status 500. -/
def recoveryWrap (r : MWResult) : MWResult :=
  if r.propagating then { r with propagating := false, status := some 500 } else r

/-- The chain `gin.Default()` + `p.Use(e)` produces around a route:
Recovery runs above the instrumentation middleware. -/
def ginDefaultChain (p : Prometheus) (req : Request) (down : Downstream)
    (startNs endNs : Int) (h : HistogramVec) : MWResult :=
  recoveryWrap (HandlerFunc p req down startNs endNs h)

/-- Plaintext exposition of one metric family (`promhttp`, modelled):
header lines naming the family, then one line per label tuple and bucket
with the cumulative counter. -/
def renderFamily (f : MetricFamily) : List String :=
  ("# HELP " ++ f.name ++ " Histogram request latencies") ::
  ("# TYPE " ++ f.name ++ " histogram") ::
  ((f.hist.obs.map Prod.fst).eraseDups.map (fun l =>
    (f.hist.buckets.map (fun b =>
      f.name ++ "_bucket le " ++ fmtElapsed b ++ " " ++
        toString (bucketCount f.hist l b))) ++
    [f.name ++ "_sum " ++ fmtElapsed (sumObs f.hist l),
     f.name ++ "_count " ++ toString (count f.hist l)])).flatten

/-- Plaintext exposition of the whole registry. -/
def renderRegistry (reg : Registry) : List String :=
  (reg.map renderFamily).flatten

/-- The handler `prometheusHandler()` wraps (src/prometheus.go lines
132–137): `promhttp.Handler().ServeHTTP` gathers the registered metrics
and writes their exposition; it returns the registry unchanged. -/
def prometheusHandlerServe (reg : Registry) : Registry × List String :=
  (reg, renderRegistry reg)

/-- What a route handler registered on the engine is. -/
inductive RouteHandler where
  | exporter
  | app (id : Nat)
deriving DecidableEq, Repr

/-- The parts of `*gin.Engine` the middleware package touches: the
registered routes (method, path, handler). -/
structure Engine where
  routes : List (String × String × RouteHandler)
deriving DecidableEq, Repr

/-- `Use` (src/prometheus.go lines 140–143): installs the instrumentation
middleware globally and registers `GET MetricsPath` pointing at
`prometheusHandler()`. -/
def Use (p : Prometheus) (e : Engine) : Engine :=
  ⟨e.routes ++ [("GET", p.MetricsPath, RouteHandler.exporter)]⟩

/-- An event interleaving exporter reads with request observations on a
registered family (named `n`). -/
inductive ScrapeEvent where
  | scrape
  | record (n : String) (l : Label) (v : ℚ)

/-- `Observe` through the registry on the family named `n` (the registered
histogram vector is the same object `p.reqDur` points to). -/
def registryObserve (reg : Registry) (n : String) (l : Label) (v : ℚ) : Registry :=
  reg.map (fun f => if f.name = n then { f with hist := observe f.hist l v } else f)

/-- Run a sequence of interleaved scrapes and observations. -/
def runEvents (evs : List ScrapeEvent) (reg : Registry) : Registry :=
  match evs with
  | [] => reg
  | .scrape :: es => runEvents es (prometheusHandlerServe reg).1
  | .record n l v :: es => runEvents es (registryObserve reg n l v)

/-- Keep only the observation events. -/
def dropScrapes (evs : List ScrapeEvent) : List ScrapeEvent :=
  evs.filter (fun e => match e with | .scrape => false | .record _ _ _ => true)

/-- `Observe` repeated over a list of values on one label tuple. -/
def observeAll (h : HistogramVec) (l : Label) (vs : List ℚ) : HistogramVec :=
  vs.foldl (fun h v => observe h l v) h

lemma observeAll_obs (l : Label) (vs : List ℚ) (h : HistogramVec) :
    (observeAll h l vs).obs = h.obs ++ vs.map (fun v => ((l, v) : Label × ℚ)) := by
  induction vs generalizing h with
  | nil => simp [observeAll]
  | cons v vs ih =>
      have : observeAll h l (v :: vs) = observeAll (observe h l v) l vs := rfl
      rw [this, ih]
      simp [observe]

lemma filter_label_map (l : Label) (vs : List ℚ) :
    ((vs.map (fun v => ((l, v) : Label × ℚ))).filter (fun o => o.1 = l)) =
      vs.map (fun v => (l, v)) := by
  induction vs with
  | nil => rfl
  | cons v vs ih => simp [List.filter_cons, ih]

end GinProm

namespace GinProm

/-- C1: the spec claims a duplicate registration aborts `NewPrometheus`
with a registration error and is never silently ignored.  It is not: the
inner `prometheus.Register` call does report the duplicate as an error,
but `registerMetrics` discards that error, so a second
`NewPrometheus "api"` against the same process-wide registry completes
normally, returning an ordinary `Prometheus` value and leaving the
registry unchanged. -/
theorem C1_counterexample :
    (register (NewPrometheus "api" []).2 (mkReqDur "api")).isOk = false ∧
    NewPrometheus "api" (NewPrometheus "api" []).2 =
      (⟨mkReqDur "api", defaultMetricPath⟩, (NewPrometheus "api" []).2) := by
  constructor
  · rfl
  · rfl

/-- C1 (amended): when a metric with the same fully-qualified name is
already present in the process-wide registry, `NewPrometheus` does not
abort: the registration error is silently discarded, the registry is left
unchanged, and a `Prometheus` holding the (unregistered) new histogram is
returned with the default metrics path. -/
theorem C1_register_error_ignored (s : String) (reg : Registry)
    (hdup : reg.any (fun f => f.name = (mkReqDur s).name) = true) :
    NewPrometheus s reg = (⟨mkReqDur s, defaultMetricPath⟩, reg) := by
  simp only [NewPrometheus, registerMetrics, register, hdup, if_true]

theorem C1_witness :
    ((NewPrometheus "api" []).2.any
        (fun f => f.name = (mkReqDur "api").name) = true) ∧
    NewPrometheus "api" (NewPrometheus "api" []).2 =
      (⟨mkReqDur "api", defaultMetricPath⟩, (NewPrometheus "api" []).2) :=
  ⟨by decide, C1_register_error_ignored "api" (NewPrometheus "api" []).2 (by decide)⟩

/-- C2: the spec claims a request whose target path equals the metrics
path is skipped for ANY query string it carries.  It is not: the code
compares the full `URL.String()` (which includes the query) against
`MetricsPath`, so `GET /metrics?debug=1` — whose path is exactly the
configured metrics path `"/metrics"` — is instrumented and adds one
observation to the histogram. -/
theorem C2_counterexample :
    (URL.path ⟨"/metrics", "debug=1"⟩ = (NewPrometheus "api" []).1.MetricsPath) ∧
    (HandlerFunc (NewPrometheus "api" []).1 ⟨"GET", ⟨"/metrics", "debug=1"⟩⟩
        (.normal 200 "") 0 1000 ⟨defaultBuckets, []⟩).hist.obs.length = 1 := by
  constructor
  · rfl
  · rfl

/-- C2 (amended): the interceptor skips instrumentation exactly when the
request's full URL string — path plus any query string — equals the
configured metrics path; in that case the histogram is untouched, nothing
is printed, and a normally-completing downstream chain still reports its
status.  (A query string on the metrics path defeats the comparison and
the request is instrumented.) -/
theorem C2_skip_exact_url (p : Prometheus) (req : Request) (down : Downstream)
    (startNs endNs : Int) (h : HistogramVec)
    (hm : req.url.urlString = p.MetricsPath) :
    (HandlerFunc p req down startNs endNs h).hist = h ∧
    (HandlerFunc p req down startNs endNs h).stdout = [] ∧
    (∀ st fp, down = .normal st fp →
      (HandlerFunc p req down startNs endNs h).status = some st) := by
  cases down <;> simp [HandlerFunc, hm]

theorem C2_witness :
    ((Request.url ⟨"GET", ⟨"/metrics", ""⟩⟩).urlString =
        (NewPrometheus "api" []).1.MetricsPath) ∧
    ((HandlerFunc (NewPrometheus "api" []).1 ⟨"GET", ⟨"/metrics", ""⟩⟩
        (.normal 200 "") 0 1000 ⟨defaultBuckets, []⟩).hist =
          (⟨defaultBuckets, []⟩ : HistogramVec) ∧
     (HandlerFunc (NewPrometheus "api" []).1 ⟨"GET", ⟨"/metrics", ""⟩⟩
        (.normal 200 "") 0 1000 ⟨defaultBuckets, []⟩).stdout = [] ∧
     (∀ st fp, (Downstream.normal 200 "") = .normal st fp →
      (HandlerFunc (NewPrometheus "api" []).1 ⟨"GET", ⟨"/metrics", ""⟩⟩
        (.normal 200 "") 0 1000 ⟨defaultBuckets, []⟩).status = some st)) :=
  ⟨by decide,
   C2_skip_exact_url (NewPrometheus "api" []).1 ⟨"GET", ⟨"/metrics", ""⟩⟩
     (.normal 200 "") 0 1000 ⟨defaultBuckets, []⟩ (by decide)⟩

/-- C3: the spec claims exactly one `Observe` happens per instrumented
request even when the downstream handler panics, provided the surrounding
framework recovers and reports a final status.  It does not: the
middleware installs no `defer`, so a panic unwinds past the observation
code; in the canonical `gin.Default()` wiring, the upstream `Recovery`
middleware recovers the panic and reports final status 500, yet zero
observations are recorded. -/
theorem C3_counterexample :
    (ginDefaultChain (NewPrometheus "api" []).1 ⟨"GET", ⟨"/boom", ""⟩⟩
        .panicked 0 5000000 ⟨defaultBuckets, []⟩).status = some 500 ∧
    (ginDefaultChain (NewPrometheus "api" []).1 ⟨"GET", ⟨"/boom", ""⟩⟩
        .panicked 0 5000000 ⟨defaultBuckets, []⟩).hist.obs = [] := by
  constructor
  · rfl
  · rfl

/-- C3 (amended): for every instrumented request (full URL string differs
from the metrics path) whose downstream chain completes normally, exactly
one observation is appended, with the derived label tuple and the elapsed
value; when the downstream handler panics, the panic propagates through
the interceptor and no observation is made, even though an upstream
recovery middleware may still report a final status. -/
theorem C3_observe_on_normal_completion (p : Prometheus) (req : Request)
    (st : Nat) (fp : String) (startNs endNs : Int) (h : HistogramVec)
    (hm : req.url.urlString ≠ p.MetricsPath) :
    (HandlerFunc p req (.normal st fp) startNs endNs h).hist.obs =
      h.obs ++ [((toString st, req.method ++ "_" ++ (if fp = "" then "404" else fp)),
                 ((endNs : ℚ) - (startNs : ℚ)) / 1000000000)] ∧
    (HandlerFunc p req .panicked startNs endNs h).hist = h := by
  simp [HandlerFunc, hm, observe]

theorem C3_witness :
    ((Request.url ⟨"GET", ⟨"/ping", ""⟩⟩).urlString ≠
        (NewPrometheus "api" []).1.MetricsPath) ∧
    ((HandlerFunc (NewPrometheus "api" []).1 ⟨"GET", ⟨"/ping", ""⟩⟩
        (.normal 200 "/ping") 0 3000000 ⟨defaultBuckets, []⟩).hist.obs =
      [] ++ [((toString 200, "GET" ++ "_" ++ (if "/ping" = "" then "404" else "/ping")),
              ((3000000 : ℚ) - (0 : ℚ)) / 1000000000)] ∧
     (HandlerFunc (NewPrometheus "api" []).1 ⟨"GET", ⟨"/ping", ""⟩⟩
        .panicked 0 3000000 ⟨defaultBuckets, []⟩).hist =
          (⟨defaultBuckets, []⟩ : HistogramVec)) :=
  ⟨by decide,
   C3_observe_on_normal_completion (NewPrometheus "api" []).1
     ⟨"GET", ⟨"/ping", ""⟩⟩ 200 "/ping" 0 3000000 ⟨defaultBuckets, []⟩ (by decide)⟩

/-- C4: for every instrumented request that matched no route
(`c.FullPath()` returns `""`), the recorded observation's path label is
exactly the request method concatenated with `"_404"`, whatever the
actual response status is; the code label is still the actual status
rendered in decimal. -/
theorem C4_unmatched_route_label (p : Prometheus) (req : Request)
    (st : Nat) (startNs endNs : Int) (h : HistogramVec)
    (hm : req.url.urlString ≠ p.MetricsPath) :
    (HandlerFunc p req (.normal st "") startNs endNs h).hist.obs =
      h.obs ++ [((toString st, req.method ++ "_404"),
                 ((endNs : ℚ) - (startNs : ℚ)) / 1000000000)] := by
  simp [HandlerFunc, hm, observe]
  rw [String.append_assoc]
  congr 1

theorem C4_witness :
    ((Request.url ⟨"GET", ⟨"/nosuch/route", ""⟩⟩).urlString ≠
        (NewPrometheus "api" []).1.MetricsPath) ∧
    (HandlerFunc (NewPrometheus "api" []).1 ⟨"GET", ⟨"/nosuch/route", ""⟩⟩
        (.normal 200 "") 0 2000000 ⟨defaultBuckets, []⟩).hist.obs =
      [] ++ [((toString 200, "GET" ++ "_404"),
              ((2000000 : ℚ) - (0 : ℚ)) / 1000000000)] :=
  ⟨by decide,
   C4_unmatched_route_label (NewPrometheus "api" []).1
     ⟨"GET", ⟨"/nosuch/route", ""⟩⟩ 200 0 2000000 ⟨defaultBuckets, []⟩ (by decide)⟩

/-- C5: for every sequence of observations v₁…vₙ on one label tuple
(starting from the freshly constructed histogram), the total count equals
n and the cumulative sum equals Σvᵢ — exactly, since values are modelled
as exact rationals; and a single observation with value v increments the
cumulative counter of every bucket bound b with v ≤ b by one and leaves
every bucket bound b < v unchanged. -/
theorem C5_histogram_semantics (l : Label) (vs : List ℚ) (h : HistogramVec)
    (v b : ℚ) :
    count (observeAll ⟨defaultBuckets, []⟩ l vs) l = vs.length ∧
    sumObs (observeAll ⟨defaultBuckets, []⟩ l vs) l = vs.sum ∧
    bucketCount (observe h l v) l b =
      bucketCount h l b + (if v ≤ b then 1 else 0) := by
  refine ⟨?_, ?_, ?_⟩
  · simp [count, observeAll_obs, filter_label_map]
  · simp [sumObs, observeAll_obs, filter_label_map]
  · by_cases hv : v ≤ b <;> simp [bucketCount, observe, List.filter_append, hv]

/-- C6: for every instrumented request completing normally, the observed
value is (end − start) in fractional seconds — the nanosecond difference
of the timestamp taken before the downstream chain and the one taken
after it completes, divided by 10⁹ — and the code label is the decimal
rendering of the final response status read after downstream
completion. -/
theorem C6_elapsed_and_status (p : Prometheus) (req : Request)
    (st : Nat) (fp : String) (startNs endNs : Int) (h : HistogramVec)
    (hm : req.url.urlString ≠ p.MetricsPath) :
    ∃ pathLabel,
      (HandlerFunc p req (.normal st fp) startNs endNs h).hist.obs =
        h.obs ++ [((toString st, pathLabel),
                   ((endNs : ℚ) - (startNs : ℚ)) / 1000000000)] := by
  refine ⟨req.method ++ "_" ++ (if fp = "" then "404" else fp), ?_⟩
  simp [HandlerFunc, hm, observe]

theorem C6_witness :
    ((Request.url ⟨"GET", ⟨"/users/42", ""⟩⟩).urlString ≠
        (NewPrometheus "api" []).1.MetricsPath) ∧
    (∃ pathLabel,
      (HandlerFunc (NewPrometheus "api" []).1 ⟨"GET", ⟨"/users/42", ""⟩⟩
          (.normal 200 "/users/:id") 1000 16000000 ⟨defaultBuckets, []⟩).hist.obs =
        [] ++ [((toString 200, pathLabel),
                ((16000000 : ℚ) - (1000 : ℚ)) / 1000000000)]) :=
  ⟨by decide,
   C6_elapsed_and_status (NewPrometheus "api" []).1 ⟨"GET", ⟨"/users/42", ""⟩⟩
     200 "/users/:id" 1000 16000000 ⟨defaultBuckets, []⟩ (by decide)⟩

/-- C7: the histogram built at construction has exactly the 15 bucket
upper bounds 0.0001, 0.0002, 0.0005, 0.001, 0.002, 0.005, 0.01, 0.02,
0.05, 0.1, 0.2, 0.5, 1, 2, 5 seconds, strictly increasing, and no
operation of the component — neither `Observe` nor a pass of the
middleware — ever changes them. -/
theorem C7_buckets_fixed :
    (∀ s : String, (mkReqDur s).hist.buckets =
      [0.0001, 0.0002, 0.0005, 0.001, 0.002, 0.005,
       0.01, 0.02, 0.05, 0.1, 0.2, 0.5, 1, 2, 5]) ∧
    defaultBuckets.length = 15 ∧
    List.Chain' (· < ·) defaultBuckets ∧
    (∀ (h : HistogramVec) (l : Label) (v : ℚ),
      (observe h l v).buckets = h.buckets) ∧
    (∀ (p : Prometheus) (req : Request) (down : Downstream)
       (startNs endNs : Int) (h : HistogramVec),
      (HandlerFunc p req down startNs endNs h).hist.buckets = h.buckets) := by
  have hb : defaultBuckets =
      [0.0001, 0.0002, 0.0005, 0.001, 0.002, 0.005,
       0.01, 0.02, 0.05, 0.1, 0.2, 0.5, 1, 2, 5] := by norm_num [defaultBuckets]
  refine ⟨fun _ => hb, by decide, ?_, fun _ _ _ => rfl, ?_⟩
  · norm_num [defaultBuckets]
  · intro p req down startNs endNs h
    unfold HandlerFunc
    split <;> cases down <;> simp [observe]

lemma registerMetrics_fam (s : String) (reg : Registry) :
    (registerMetrics s reg).1 = mkReqDur s := by
  unfold registerMetrics
  cases h : register reg (mkReqDur s) <;> simp [h]

lemma registerMetrics_snd_fresh (s : String) (reg : Registry)
    (hfresh : reg.any (fun f => f.name = (mkReqDur s).name) = false) :
    (registerMetrics s reg).2 = reg ++ [mkReqDur s] := by
  unfold registerMetrics register
  simp [hfresh]

lemma mkReqDur_name (s : String) (hs : s ≠ "") :
    (mkReqDur s).name = s ++ "_request_duration_seconds" := by
  have hrds : ("request_duration_seconds" : String) ≠ "" := by decide
  simp [mkReqDur, buildFQName, hs, hrds]
  rw [String.append_assoc]
  congr 1

/-- C8: the spec claims the registered metric is named
`<subsystem>_request_duration_seconds` for EVERY subsystem string.  For
the empty subsystem it is not: `prometheus.BuildFQName` skips empty
components, so the name is `request_duration_seconds` with no leading
underscore. -/
theorem C8_counterexample :
    (NewPrometheus "" []).1.reqDur.name ≠ "" ++ "_request_duration_seconds" := by
  decide

/-- C8 (amended): for every NON-EMPTY subsystem string, the registered
metric's fully-qualified name is `<subsystem>_request_duration_seconds`
and its label dimensions are exactly `code` and `path`; the metrics path
defaults to `/metrics`, `Use` registers a GET route at that path pointing
at the exporter, and (when the name was not already taken) the exporter's
plaintext exposition of the resulting registry carries this histogram
under that name. -/
theorem C8_metric_name_and_route (s : String) (e : Engine) (reg : Registry)
    (hs : s ≠ "")
    (hfresh : reg.any (fun f => f.name = (mkReqDur s).name) = false) :
    (NewPrometheus s reg).1.reqDur.name = s ++ "_request_duration_seconds" ∧
    (NewPrometheus s reg).1.reqDur.labelNames = ["code", "path"] ∧
    (NewPrometheus s reg).1.MetricsPath = defaultMetricPath ∧
    ("GET", (NewPrometheus s reg).1.MetricsPath, RouteHandler.exporter) ∈
      (Use (NewPrometheus s reg).1 e).routes ∧
    ("# TYPE " ++ (NewPrometheus s reg).1.reqDur.name ++ " histogram") ∈
      renderRegistry (NewPrometheus s reg).2 := by
  have h1 : (NewPrometheus s reg).1.reqDur = mkReqDur s := by
    show (registerMetrics s reg).1 = mkReqDur s
    exact registerMetrics_fam s reg
  have h2 : (NewPrometheus s reg).2 = reg ++ [mkReqDur s] := by
    show (registerMetrics s reg).2 = reg ++ [mkReqDur s]
    exact registerMetrics_snd_fresh s reg hfresh
  refine ⟨h1 ▸ mkReqDur_name s hs, h1 ▸ rfl, rfl, ?_, ?_⟩
  · simp [Use]
  · rw [h1, h2]
    simp only [renderRegistry, List.map_append, List.flatten_append]
    refine List.mem_append_right _ ?_
    simp [renderFamily]

theorem C8_witness :
    (("api" : String) ≠ "") ∧
    (([] : Registry).any (fun f => f.name = (mkReqDur "api").name) = false) ∧
    ((NewPrometheus "api" []).1.reqDur.name = "api" ++ "_request_duration_seconds" ∧
     (NewPrometheus "api" []).1.reqDur.labelNames = ["code", "path"] ∧
     (NewPrometheus "api" []).1.MetricsPath = defaultMetricPath ∧
     ("GET", (NewPrometheus "api" []).1.MetricsPath, RouteHandler.exporter) ∈
       (Use (NewPrometheus "api" []).1 ⟨[]⟩).routes ∧
     ("# TYPE " ++ (NewPrometheus "api" []).1.reqDur.name ++ " histogram") ∈
       renderRegistry (NewPrometheus "api" []).2) :=
  ⟨by decide, by decide,
   C8_metric_name_and_route "api" ⟨[]⟩ [] (by decide) (by decide)⟩

/-- C9: an exporter read is non-mutating: a single serve returns the
registry unchanged, and any interleaving of scrapes with request
observations yields exactly the registry the observations alone would
yield. -/
theorem C9_read_non_mutating (reg : Registry) (evs : List ScrapeEvent) :
    (prometheusHandlerServe reg).1 = reg ∧
    runEvents evs reg = runEvents (dropScrapes evs) reg := by
  refine ⟨rfl, ?_⟩
  induction evs generalizing reg with
  | nil => rfl
  | cons ev es ih =>
      cases ev with
      | scrape => simpa [runEvents, dropScrapes, List.filter_cons] using ih reg
      | record n l v => simp [runEvents, dropScrapes, List.filter_cons, ih]

/-- C10: for every instrumented request completing normally, besides the
single observation, the interceptor writes exactly one line to standard
output, built from the formatted start timestamp, end timestamp and
elapsed seconds — a logging side effect the spec does not mention. -/
theorem C10_stdout_line (p : Prometheus) (req : Request) (st : Nat)
    (fp : String) (startNs endNs : Int) (h : HistogramVec)
    (hm : req.url.urlString ≠ p.MetricsPath) :
    (HandlerFunc p req (.normal st fp) startNs endNs h).stdout =
      [logLine startNs endNs (((endNs : ℚ) - (startNs : ℚ)) / 1000000000)] ∧
    (HandlerFunc p req (.normal st fp) startNs endNs h).hist.obs.length =
      h.obs.length + 1 := by
  simp [HandlerFunc, hm, observe]

theorem C10_witness :
    ((Request.url ⟨"GET", ⟨"/ping2", ""⟩⟩).urlString ≠
        (NewPrometheus "api" []).1.MetricsPath) ∧
    ((HandlerFunc (NewPrometheus "api" []).1 ⟨"GET", ⟨"/ping2", ""⟩⟩
        (.normal 204 "/ping2") 0 7000000 ⟨defaultBuckets, []⟩).stdout =
      [logLine 0 7000000 (((7000000 : ℚ) - (0 : ℚ)) / 1000000000)] ∧
     (HandlerFunc (NewPrometheus "api" []).1 ⟨"GET", ⟨"/ping2", ""⟩⟩
        (.normal 204 "/ping2") 0 7000000 ⟨defaultBuckets, []⟩).hist.obs.length =
      (HistogramVec.obs ⟨defaultBuckets, []⟩).length + 1) :=
  ⟨by decide,
   C10_stdout_line (NewPrometheus "api" []).1 ⟨"GET", ⟨"/ping2", ""⟩⟩
     204 "/ping2" 0 7000000 ⟨defaultBuckets, []⟩ (by decide)⟩

end GinProm
